import Mathlib

/-!
Shallow embedding of `src/api/window/window.ts` (the window handle of the
js-adapter client): the creation handshake (`createWindow`), the options
defaulting, the group resolver (`windowListFromNameList` / `getGroup`), the
poison-on-close discipline (`close`), and the RPC payload construction of the
geometry methods (`moveTo`, `moveBy`, `resizeTo`, `resizeBy`, `setBounds`,
`showAt`).  Numbers that travel on the wire are modelled as rationals so that
`Math.floor` is observable; `undefined` fields are `Option`s.
-/

namespace JsAdapter

/-- `Identity`: `{ uuid, name }` naming one window resource. -/
structure Identity where
  uuid : String
  name : String
deriving DecidableEq, Repr

/-- An entry of the runtime's group-query reply: `{uuid, name, isExternalWindow}`
(`GroupWindowIdentity` in `identity.ts`, as consumed by `windowListFromNameList`). -/
structure GroupWindowIdentity where
  uuid : String
  name : String
  isExternalWindow : Bool
deriving DecidableEq, Repr

/-- The `WindowOption` fields that `createWindow` reads or writes
(window.ts:593-599) plus `url`, kept to observe that `createWindow` never
touches it.  `none` models a field the caller left `undefined`. -/
structure WindowOption where
  name : String
  url : Option String
  waitForPageLoad : Option Bool
  autoShow : Option Bool
deriving DecidableEq, Repr

/-- `//set defaults:` block of `createWindow` (window.ts:593-599): assigns
`waitForPageLoad = false` and `autoShow = true` when they are `undefined`,
mutating the caller's options object in place.  No other field is touched. -/
def setDefaults (options : WindowOption) : WindowOption :=
  let options :=
    if options.waitForPageLoad = none then
      { options with waitForPageLoad := some false }
    else options
  if options.autoShow = none then
    { options with autoShow := some true }
  else options

/-- The synchronous prelude of `createWindow` (window.ts:560-601): the
constructor-callback listener is registered, defaults are written into the
caller's options object, and that same (mutated) object is handed to
`this.wire.environment.createChildWindow`.  `callerOptions` and `rpcArg` are
one JS object, so they are equal by construction. -/
structure CreateCall where
  registeredTopic : String
  callerOptions : WindowOption
  rpcArg : WindowOption
deriving Repr

def createWindowPrelude (options : WindowOption) : CreateCall :=
  let opts := setDefaults options
  { registeredTopic := "fire-constructor-callback"
    callerOptions := opts
    rpcArg := opts }

/-- `response.data` of the constructor-callback notification:
`{ message, httpResponseCode?, apiInjected?, networkErrorCode?, stack? }`. -/
structure ConstructorCallbackData where
  message : String
  httpResponseCode : Option Int
  apiInjected : Option Bool
  networkErrorCode : Option Int
  stack : Option String
deriving DecidableEq, Repr

/-- The constructor-callback notification payload `{ success, data }`. -/
structure ConstructorResponse where
  success : Bool
  data : ConstructorCallbackData
deriving DecidableEq, Repr

/-- `cbPayload` built by `fireConstructor` (window.ts:571-582): one shape on
success, another on failure. -/
inductive CbPayload where
  | success (httpResponseCode : Option Int) (apiInjected : Option Bool)
  | failure (message : String) (networkErrorCode : Option Int) (stack : Option String)
deriving DecidableEq, Repr

/-- The value `fireConstructor` resolves `pageResponse` with
(window.ts:585-589): `{ message, cbPayload, success }`. -/
structure PageResolve where
  message : String
  cbPayload : CbPayload
  success : Bool
deriving DecidableEq, Repr

/-- Body of the `fireConstructor` listener (window.ts:565-590), as the pure
map from the delivered notification to the `pageResponse` resolution value. -/
def fireConstructor (response : ConstructorResponse) : PageResolve :=
  let success := response.success
  let responseData := response.data
  let message := responseData.message
  let cbPayload :=
    if success then
      CbPayload.success responseData.httpResponseCode responseData.apiInjected
    else
      CbPayload.failure responseData.message responseData.networkErrorCode responseData.stack
  { message := message, cbPayload := cbPayload, success := success }

/-- Settlement of the `createChildWindow` RPC: fulfilled, or rejected with an
error value (modelled as a string). -/
inductive RpcResult where
  | resolved
  | rejected (err : String)
deriving DecidableEq, Repr

/-- How the promise returned by `createWindow` settles:
`resolve(this)` (window.ts:605), `reject(pageResolve)` (window.ts:607), or
`.catch(reject)` with the RPC rejection (window.ts:620). -/
inductive CreateOutcome where
  | resolvedHandle
  | rejectedPage (p : PageResolve)
  | rejectedRpc (err : String)
deriving DecidableEq, Repr

/-- State of one `createWindow` call between transport events:
`listenerRegistered` — the `fire-constructor-callback` listener is installed;
`pageResponse` — the inner promise's resolution value, once resolved;
`rpc` — settlement of `createChildWindow`, once settled;
`outcome` — settlement of the outer promise, once settled;
`fireCount` — how many times the `fireConstructor` body has run. -/
structure HandshakeState where
  listenerRegistered : Bool
  pageResponse : Option PageResolve
  rpc : Option RpcResult
  outcome : Option CreateOutcome
  fireCount : Nat
deriving DecidableEq, Repr

/-- State right after the synchronous part of `createWindow`: listener
installed, nothing settled. -/
def initState : HandshakeState :=
  { listenerRegistered := true
    pageResponse := none
    rpc := none
    outcome := none
    fireCount := 0 }

/-- Events the transport can deliver to one `createWindow` call: the
constructor-callback notification, or the settlement of `createChildWindow`. -/
inductive HandshakeEvent where
  | notify (r : ConstructorResponse)
  | rpcSettle (r : RpcResult)
deriving DecidableEq, Repr

def HandshakeEvent.isNotify : HandshakeEvent → Bool
  | .notify _ => true
  | .rpcSettle _ => false

def HandshakeEvent.isRpcSettle : HandshakeEvent → Bool
  | .notify _ => false
  | .rpcSettle _ => true

/-- The continuation of `Promise.all([pageResponse, windowCreation])`
(window.ts:602-620): once the outer promise is settled nothing changes; a
rejected RPC rejects the outer promise with the RPC's error (`.catch(reject)`)
regardless of `pageResponse`; when both sources have settled successfully the
outer promise resolves with the handle if `pageResolve.success`, else rejects
with `pageResolve`. -/
def checkSettle (s : HandshakeState) : HandshakeState :=
  if s.outcome.isSome then s
  else
    match s.rpc with
    | some (.rejected err) => { s with outcome := some (.rejectedRpc err) }
    | some .resolved =>
        match s.pageResponse with
        | some p =>
            let o := if p.success then CreateOutcome.resolvedHandle else CreateOutcome.rejectedPage p
            { s with outcome := some o }
        | none => s
    | none => s

/-- One transport event.  Delivering the notification while the listener is
installed runs `fireConstructor`: it removes its own registration first
(window.ts:584) and then resolves `pageResponse` (a promise resolves at most
once); with the listener gone a duplicate delivery is a no-op.  A promise
settles at most once, so a second `rpcSettle` is a no-op. -/
def step (s : HandshakeState) (e : HandshakeEvent) : HandshakeState :=
  match e with
  | .notify r =>
      if s.listenerRegistered then
        let s' := { s with listenerRegistered := false, fireCount := s.fireCount + 1 }
        let s'' :=
          if s'.pageResponse = none then
            { s' with pageResponse := some (fireConstructor r) }
          else s'
        checkSettle s''
      else s
  | .rpcSettle r =>
      if s.rpc = none then checkSettle { s with rpc := some r } else s

/-- A whole delivery schedule, starting from the freshly-issued call. -/
def run (es : List HandshakeEvent) : HandshakeState :=
  es.foldl step initState

/-- A member of a group-query result (window.ts:624-632): a full local
`_Window` handle carrying `{uuid, name}`, or an `ExternalWindow` handle, which
is constructed with `{ uuid }` only. -/
inductive GroupMember where
  | window (identity : Identity)
  | external (uuid : String)
deriving DecidableEq, Repr

/-- `windowListFromNameList` (window.ts:624-632): map each runtime entry to an
`ExternalWindow` handle built from `{ uuid }` when `isExternalWindow`, else to
a `_Window` handle built from `{ uuid, name }`. -/
def windowListFromNameList (identityList : List GroupWindowIdentity) : List GroupMember :=
  identityList.map fun e =>
    if e.isExternalWindow then GroupMember.external e.uuid
    else GroupMember.window { uuid := e.uuid, name := e.name }

/-- The reply handler of `getGroup` (window.ts:814-822): starts from the empty
array and fills it from `windowListFromNameList` only when `payload.data` is
nonempty. -/
def getGroupResult (data : List GroupWindowIdentity) : List GroupMember :=
  if data.length ≠ 0 then windowListFromNameList data else []

/-- The `name` a group member's handle identity carries, if any: an
`ExternalWindow` is built with `{ uuid }` alone, so it carries none. -/
def memberName : GroupMember → Option String
  | .window identity => some identity.name
  | .external _ => none

/-- `Math.floor` on a wire number, staying in the number type. -/
def mathFloor (q : ℚ) : ℚ := (Rat.floor q : ℚ)

/-- The `anchor` string argument of the resize methods. -/
abbrev AnchorType := String

/-- `WindowMovementOptions` (window.ts:110-112). -/
structure WindowMovementOptions where
  moveIndependently : Bool
deriving DecidableEq, Repr

/-- `Bounds` as spread into the `setBounds` payload (window.ts:389-399). -/
structure Bounds where
  height : ℚ
  width : ℚ
  top : ℚ
  left : ℚ
  right : ℚ
  bottom : ℚ
deriving DecidableEq, Repr

/-- A value occurring in an RPC payload field. -/
inductive FieldVal where
  | str (s : String)
  | num (q : ℚ)
  | flag (b : Bool)
  | opts (o : WindowMovementOptions)
deriving DecidableEq, Repr

/-- One `sendAction` call: topic and payload, the payload being the
operation-specific fields followed by the handle's identity, mirroring
`Object.assign({}, { ...extras }, this.identity)`. -/
structure SentAction where
  topic : String
  fields : List (String × FieldVal)
deriving DecidableEq, Repr

/-- The identity part every payload ends with. -/
def identityFields (idn : Identity) : List (String × FieldVal) :=
  [("uuid", .str idn.uuid), ("name", .str idn.name)]

/-- The transport-issuing instance methods of `_Window`, with the arguments
their payloads depend on. -/
inductive Method where
  | getAllFrames
  | getBounds
  | focus
  | center
  | blur
  | bringToFront
  | hide
  | close (force : Bool)
  | getNativeId
  | disableUserMovement
  | enableUserMovement
  | flash
  | stopFlashing
  | getGroup
  | getInfo
  | getOptions
  | getState
  | isShowing
  | joinGroup (targetUuid targetName : String)
  | reload (ignoreCache : Bool)
  | leaveGroup
  | maximize
  | mergeGroups (targetUuid targetName : String)
  | minimize
  | moveBy (deltaLeft deltaTop : ℚ) (options : WindowMovementOptions)
  | moveTo (left top : ℚ) (options : WindowMovementOptions)
  | resizeBy (deltaWidth deltaHeight : ℚ) (anchor : AnchorType) (options : WindowMovementOptions)
  | resizeTo (width height : ℚ) (anchor : AnchorType) (options : WindowMovementOptions)
  | restore
  | setAsForeground
  | setBounds (bounds : Bounds) (options : WindowMovementOptions)
  | show (force : Bool)
  | showAt (left top : ℚ) (force : Bool) (options : WindowMovementOptions)
  | showDeveloperTools
  | authenticate (userName password : String)
deriving DecidableEq, Repr

/-- The one `sendAction` a method issues, topic and payload exactly as built in
window.ts (lines cited per case); `Math.floor` appears exactly where the
source applies it: `resizeBy` (1021-1022), `resizeTo` (1042-1043), `showAt`
(1105-1106) — and nowhere in `moveBy` (984-988), `moveTo` (1000-1004) or
`setBounds` (1075). -/
def methodAction (m : Method) (idn : Identity) : SentAction :=
  match m with
  | .getAllFrames => ⟨"get-all-frames", identityFields idn⟩
  | .getBounds => ⟨"get-window-bounds", identityFields idn⟩
  | .focus => ⟨"focus-window", identityFields idn⟩
  | .center => ⟨"center-window", identityFields idn⟩
  | .blur => ⟨"blur-window", identityFields idn⟩
  | .bringToFront => ⟨"bring-window-to-front", identityFields idn⟩
  | .hide => ⟨"hide-window", identityFields idn⟩
  | .close force => ⟨"close-window", ("force", .flag force) :: identityFields idn⟩
  | .getNativeId => ⟨"get-window-native-id", identityFields idn⟩
  | .disableUserMovement => ⟨"disable-window-frame", identityFields idn⟩
  | .enableUserMovement => ⟨"enable-window-frame", identityFields idn⟩
  | .flash => ⟨"flash-window", identityFields idn⟩
  | .stopFlashing => ⟨"stop-flash-window", identityFields idn⟩
  | .getGroup => ⟨"get-window-group", ("crossApp", .flag true) :: identityFields idn⟩
  | .getInfo => ⟨"get-window-info", identityFields idn⟩
  | .getOptions => ⟨"get-window-options", identityFields idn⟩
  | .getState => ⟨"get-window-state", identityFields idn⟩
  | .isShowing => ⟨"is-window-showing", identityFields idn⟩
  | .joinGroup tu tn =>
      ⟨"join-window-group",
        ("groupingUuid", .str tu) :: ("groupingWindowName", .str tn) :: identityFields idn⟩
  | .reload ignoreCache => ⟨"reload-window", ("ignoreCache", .flag ignoreCache) :: identityFields idn⟩
  | .leaveGroup => ⟨"leave-window-group", identityFields idn⟩
  | .maximize => ⟨"maximize-window", identityFields idn⟩
  | .mergeGroups tu tn =>
      ⟨"merge-window-groups",
        ("groupingUuid", .str tu) :: ("groupingWindowName", .str tn) :: identityFields idn⟩
  | .minimize => ⟨"minimize-window", identityFields idn⟩
  | .moveBy dl dt o =>
      ⟨"move-window-by",
        ("deltaLeft", .num dl) :: ("deltaTop", .num dt) :: ("options", .opts o)
          :: identityFields idn⟩
  | .moveTo l t o =>
      ⟨"move-window",
        ("left", .num l) :: ("top", .num t) :: ("options", .opts o) :: identityFields idn⟩
  | .resizeBy dw dh a o =>
      ⟨"resize-window-by",
        ("deltaWidth", .num (mathFloor dw)) :: ("deltaHeight", .num (mathFloor dh))
          :: ("anchor", .str a) :: ("options", .opts o) :: identityFields idn⟩
  | .resizeTo w h a o =>
      ⟨"resize-window",
        ("width", .num (mathFloor w)) :: ("height", .num (mathFloor h))
          :: ("anchor", .str a) :: ("options", .opts o) :: identityFields idn⟩
  | .restore => ⟨"restore-window", identityFields idn⟩
  | .setAsForeground => ⟨"set-foreground-window", identityFields idn⟩
  | .setBounds b o =>
      ⟨"set-window-bounds",
        ("height", .num b.height) :: ("width", .num b.width) :: ("top", .num b.top)
          :: ("left", .num b.left) :: ("right", .num b.right) :: ("bottom", .num b.bottom)
          :: ("options", .opts o) :: identityFields idn⟩
  | .show force => ⟨"show-window", ("force", .flag force) :: identityFields idn⟩
  | .showAt l t force o =>
      ⟨"show-at-window",
        ("force", .flag force) :: ("left", .num (mathFloor l)) :: ("top", .num (mathFloor t))
          :: ("options", .opts o) :: identityFields idn⟩
  | .showDeveloperTools => ⟨"show-developer-tools", identityFields idn⟩
  | .authenticate u p =>
      ⟨"window-authenticate",
        ("userName", .str u) :: ("password", .str p) :: identityFields idn⟩

/-- A `_Window` handle's local state: its identity and whether close()'s
fulfillment handler has already run `Object.setPrototypeOf(this, null)`
(window.ts:725), detaching every method of the handle. -/
structure WindowState where
  identity : Identity
  protoDetached : Bool
deriving DecidableEq, Repr

/-- What a method invocation produces locally: the RPC went out, or the
invocation failed deterministically because the handle's prototype was
detached (in JS the member lookup throws before any transport call). -/
inductive InvokeResult where
  | ok
  | closedError
deriving DecidableEq, Repr

/-- Invoking a method on a handle: all `_Window` methods live on the class
prototype, so on a handle whose prototype was detached by `close` the lookup
fails deterministically and nothing is sent; otherwise the method issues its
one `sendAction`. -/
def invoke (s : WindowState) (m : Method) : List SentAction × InvokeResult :=
  if s.protoDetached then ([], .closedError)
  else ([methodAction m s.identity], .ok)

/-- `close` (window.ts:722-728): send `close-window` with `{ force }` merged
into the identity; on fulfillment, detach the handle's prototype.  Returns the
sent action and the post-resolution handle state. -/
def closeSettle (s : WindowState) (force : Bool) : SentAction × WindowState :=
  (methodAction (.close force) s.identity, { s with protoDetached := true })

/-- The handshake state once the creation RPC has resolved but no
constructor-callback notification has been delivered. -/
def midState : HandshakeState :=
  { listenerRegistered := true
    pageResponse := none
    rpc := some RpcResult.resolved
    outcome := none
    fireCount := 0 }

/-- Listener discipline of the creation handshake: while the
`fire-constructor-callback` registration is still installed the listener body
has never run, and it never runs more than once. -/
def ListenerInv (s : HandshakeState) : Prop :=
  (s.listenerRegistered = true → s.fireCount = 0) ∧ s.fireCount ≤ 1

section HandshakeLemmas

lemma checkSettle_outcome_isSome (s : HandshakeState) (o : CreateOutcome)
    (h : s.outcome = some o) : checkSettle s = s := by
  simp [checkSettle, h]

lemma step_outcome_mono (s : HandshakeState) (e : HandshakeEvent) (o : CreateOutcome)
    (h : s.outcome = some o) : (step s e).outcome = some o := by
  cases e with
  | notify r =>
      by_cases hl : s.listenerRegistered
      · by_cases hp : s.pageResponse = none <;>
          simp [step, hl, hp, checkSettle, h]
      · simp [step, hl, h]
  | rpcSettle r =>
      by_cases hr : s.rpc = none
      · simp [step, hr, checkSettle, h]
      · simp [step, hr, h]

lemma foldl_outcome_mono (es : List HandshakeEvent) (s : HandshakeState) (o : CreateOutcome)
    (h : s.outcome = some o) : (es.foldl step s).outcome = some o := by
  induction es generalizing s with
  | nil => simpa using h
  | cons e es ih => exact ih _ (step_outcome_mono s e o h)

lemma step_midState_fix (e : HandshakeEvent) (he : e.isNotify = false) :
    step midState e = midState := by
  cases e with
  | notify r => simp [HandshakeEvent.isNotify] at he
  | rpcSettle r => simp [step, midState]

lemma foldl_midState_fix (es : List HandshakeEvent) (hes : ∀ e ∈ es, e.isNotify = false) :
    es.foldl step midState = midState := by
  induction es with
  | nil => rfl
  | cons e es ih =>
      rw [List.foldl_cons, step_midState_fix e (hes e (by simp))]
      exact ih fun e' he' => hes e' (by simp [he'])

lemma step_no_rpc (s : HandshakeState) (e : HandshakeEvent) (he : e.isRpcSettle = false)
    (hr : s.rpc = none) (ho : s.outcome = none) :
    (step s e).rpc = none ∧ (step s e).outcome = none := by
  cases e with
  | notify r =>
      by_cases hl : s.listenerRegistered
      · by_cases hp : s.pageResponse = none <;>
          simp [step, hl, hp, checkSettle, hr, ho]
      · simp [step, hl, hr, ho]
  | rpcSettle r => simp [HandshakeEvent.isRpcSettle] at he

lemma foldl_no_rpc (es : List HandshakeEvent) (s : HandshakeState)
    (hes : ∀ e ∈ es, e.isRpcSettle = false) (hr : s.rpc = none) (ho : s.outcome = none) :
    (es.foldl step s).rpc = none ∧ (es.foldl step s).outcome = none := by
  induction es generalizing s with
  | nil => exact ⟨hr, ho⟩
  | cons e es ih =>
      have h := step_no_rpc s e (hes e (by simp)) hr ho
      exact ih (step s e) (fun e' he' => hes e' (by simp [he'])) h.1 h.2

lemma checkSettle_fireCount (s : HandshakeState) :
    (checkSettle s).fireCount = s.fireCount ∧
    (checkSettle s).listenerRegistered = s.listenerRegistered := by
  unfold checkSettle
  split
  · exact ⟨rfl, rfl⟩
  · split
    · exact ⟨rfl, rfl⟩
    · split
      · exact ⟨rfl, rfl⟩
      · exact ⟨rfl, rfl⟩
    · exact ⟨rfl, rfl⟩

lemma listenerInv_of_eq (s t : HandshakeState)
    (hf : t.fireCount = s.fireCount) (hl : t.listenerRegistered = s.listenerRegistered)
    (h : ListenerInv s) : ListenerInv t := by
  refine ⟨fun hlt => ?_, ?_⟩
  · rw [hf]
    exact h.1 (hl ▸ hlt)
  · rw [hf]
    exact h.2

lemma listenerInv_step (s : HandshakeState) (e : HandshakeEvent) (h : ListenerInv s) :
    ListenerInv (step s e) := by
  cases e with
  | notify r =>
      by_cases hl : s.listenerRegistered
      · have h0 : s.fireCount = 0 := h.1 hl
        by_cases hp : s.pageResponse = none
        · have hstep : step s (.notify r) =
              checkSettle { s with listenerRegistered := false, fireCount := s.fireCount + 1,
                                   pageResponse := some (fireConstructor r) } := by
            simp [step, hl, hp]
          rw [hstep]
          refine ⟨fun hlt => ?_, ?_⟩
          · rw [(checkSettle_fireCount _).2] at hlt
            simp at hlt
          · rw [(checkSettle_fireCount _).1]
            simp [h0]
        · have hstep : step s (.notify r) =
              checkSettle { s with listenerRegistered := false,
                                   fireCount := s.fireCount + 1 } := by
            simp [step, hl, hp]
          rw [hstep]
          refine ⟨fun hlt => ?_, ?_⟩
          · rw [(checkSettle_fireCount _).2] at hlt
            simp at hlt
          · rw [(checkSettle_fireCount _).1]
            simp [h0]
      · simpa [step, hl] using h
  | rpcSettle r =>
      by_cases hr : s.rpc = none
      · have hstep : step s (.rpcSettle r) = checkSettle { s with rpc := some r } := by
          simp [step, hr]
        rw [hstep]
        exact listenerInv_of_eq s _ (checkSettle_fireCount _).1 (checkSettle_fireCount _).2 h
      · simpa [step, hr] using h

lemma listenerInv_foldl (es : List HandshakeEvent) (s : HandshakeState) (h : ListenerInv s) :
    ListenerInv (es.foldl step s) := by
  induction es generalizing s with
  | nil => exact h
  | cons e es ih => exact ih _ (listenerInv_step s e h)

end HandshakeLemmas

/-- C1: for every valid creation, the outer promise of `createWindow` is a
rendezvous of the creation RPC and the constructor-callback notification: if
the RPC has resolved but no notification has been delivered (any further
RPC-side events notwithstanding), the promise is still pending; delivering the
success notification thereafter resolves it with the handle. -/
theorem create_rendezvous (es : List HandshakeEvent) (r : ConstructorResponse)
    (hes : ∀ e ∈ es, e.isNotify = false) (hr : r.success = true) :
    (run (HandshakeEvent.rpcSettle RpcResult.resolved :: es)).outcome = none ∧
    (run ((HandshakeEvent.rpcSettle RpcResult.resolved :: es)
        ++ [HandshakeEvent.notify r])).outcome = some CreateOutcome.resolvedHandle := by
  have hmid : run (HandshakeEvent.rpcSettle RpcResult.resolved :: es) = midState := by
    rw [run, List.foldl_cons]
    have h0 : step initState (HandshakeEvent.rpcSettle RpcResult.resolved) = midState := by
      simp [step, initState, checkSettle, midState]
    rw [h0]
    exact foldl_midState_fix es hes
  constructor
  · rw [hmid]
    rfl
  · rw [run, List.foldl_append]
    rw [show List.foldl step initState (HandshakeEvent.rpcSettle RpcResult.resolved :: es)
          = midState from hmid]
    simp [step, midState, checkSettle, fireConstructor, hr]

/-- C1 witness: with the RPC resolved and no notification the promise is
pending; one success notification then resolves it. -/
theorem create_rendezvous_witness :
    (run [HandshakeEvent.rpcSettle RpcResult.resolved]).outcome = none ∧
    (run [HandshakeEvent.rpcSettle RpcResult.resolved,
          HandshakeEvent.notify ⟨true, ⟨"", some 200, some true, none, none⟩⟩]).outcome =
      some CreateOutcome.resolvedHandle :=
  create_rendezvous [] ⟨true, ⟨"", some 200, some true, none, none⟩⟩ (by simp) rfl

/-- C2: if the creation RPC rejects, `createWindow`'s promise rejects with
exactly that rejection value, whatever the notification did before or does
after — in particular even if the notification later reports success. -/
theorem rpc_rejection_rejects_create (es1 es2 : List HandshakeEvent) (err : String)
    (h1 : ∀ e ∈ es1, e.isRpcSettle = false) :
    (run (es1 ++ HandshakeEvent.rpcSettle (RpcResult.rejected err) :: es2)).outcome =
      some (CreateOutcome.rejectedRpc err) := by
  rw [run, List.foldl_append, List.foldl_cons]
  have h2 := foldl_no_rpc es1 initState h1 rfl rfl
  have h3 : (step (es1.foldl step initState) (HandshakeEvent.rpcSettle (RpcResult.rejected err))).outcome
      = some (CreateOutcome.rejectedRpc err) := by
    simp [step, h2.1, checkSettle, h2.2]
  exact foldl_outcome_mono es2 _ _ h3

/-- C2 witness: the RPC rejects with "boom", the notification then reports
success, and the create promise is rejected with the RPC's error. -/
theorem rpc_rejection_rejects_create_witness :
    (run [HandshakeEvent.rpcSettle (RpcResult.rejected "boom"),
          HandshakeEvent.notify ⟨true, ⟨"ok", some 200, some true, none, none⟩⟩]).outcome =
      some (CreateOutcome.rejectedRpc "boom") :=
  rpc_rejection_rejects_create []
    [HandshakeEvent.notify ⟨true, ⟨"ok", some 200, some true, none, none⟩⟩] "boom" (by simp)

/-- C3: when the RPC resolves and the notification reports `success:false`
(in either delivery order), `createWindow` rejects with the `pageResolve`
failure value, whose `cbPayload` carries the notification's `message`,
`networkErrorCode` and `stack`. -/
theorem notification_failure_rejects_create (r : ConstructorResponse)
    (hr : r.success = false) :
    (run [HandshakeEvent.rpcSettle RpcResult.resolved, HandshakeEvent.notify r]).outcome =
      some (CreateOutcome.rejectedPage
        { message := r.data.message
          cbPayload := CbPayload.failure r.data.message r.data.networkErrorCode r.data.stack
          success := false }) ∧
    (run [HandshakeEvent.notify r, HandshakeEvent.rpcSettle RpcResult.resolved]).outcome =
      some (CreateOutcome.rejectedPage
        { message := r.data.message
          cbPayload := CbPayload.failure r.data.message r.data.networkErrorCode r.data.stack
          success := false }) := by
  constructor <;>
    simp [run, step, checkSettle, fireConstructor, initState, hr]

/-- C3 witness: a failed page load rejects creation with the notification's
message, network error code and stack. -/
theorem notification_failure_rejects_create_witness :
    (run [HandshakeEvent.rpcSettle RpcResult.resolved,
          HandshakeEvent.notify ⟨false, ⟨"load failed", none, none, some (-118), some "trace"⟩⟩]).outcome =
      some (CreateOutcome.rejectedPage
        ⟨"load failed", CbPayload.failure "load failed" (some (-118)) (some "trace"), false⟩) :=
  (notification_failure_rejects_create
    ⟨false, ⟨"load failed", none, none, some (-118), some "trace"⟩⟩ rfl).1

/-- C4: the `fire-constructor-callback` listener fires at most once per
creation attempt under every delivery schedule, duplicate deliveries
included: the registration is removed from inside the delivery path before
the tied promise resolution runs, so a second delivery finds no listener. -/
theorem constructor_cb_fires_at_most_once (es : List HandshakeEvent) :
    (run es).fireCount ≤ 1 :=
  (listenerInv_foldl es initState ⟨fun _ => rfl, Nat.zero_le 1⟩).2

/-- C5 counterexample: `createWindow` does not default `url` locally — with
`url` unset, the options after the defaulting block still carry no `url`, so
the RPC does not see `"about:blank"`. -/
theorem url_not_defaulted_locally :
    (setDefaults { name := "w1", url := none, waitForPageLoad := none, autoShow := none }).url
      ≠ some "about:blank" := by
  simp [setDefaults]

/-- C5 amended: before the creation RPC, `createWindow` locally defaults only
`waitForPageLoad` (to `false`) and `autoShow` (to `true`) when unset; `url`
(and `name`) are passed through untouched, and the defaulted options value is
exactly the argument of `createChildWindow`. -/
theorem create_defaults_amended (o : WindowOption) :
    (setDefaults o).waitForPageLoad = some (o.waitForPageLoad.getD false) ∧
    (setDefaults o).autoShow = some (o.autoShow.getD true) ∧
    (setDefaults o).url = o.url ∧
    (setDefaults o).name = o.name ∧
    (createWindowPrelude o).rpcArg = setDefaults o := by
  rcases o with ⟨n, u, w, a⟩
  cases w <;> cases a <;> simp [setDefaults, createWindowPrelude]

/-- C6: once `close()` has resolved — its fulfillment handler detaches the
handle's prototype — every method invocation on that handle fails
deterministically with the closed-handle error and sends nothing on the
transport. -/
theorem closed_handle_rejects_without_rpc (s : WindowState) (force : Bool) (m : Method) :
    invoke (closeSettle s force).2 m = ([], InvokeResult.closedError) := by
  simp [invoke, closeSettle]

/-- C7 counterexample: `moveTo` does not floor its coordinates — a left of
1/2 is transmitted as 1/2, although flooring would have produced a different
value. -/
theorem moveTo_not_floored :
    (methodAction (Method.moveTo (1/2) 0 ⟨false⟩) ⟨"app", "w"⟩).fields.lookup "left"
      = some (FieldVal.num (1/2)) ∧ mathFloor (1/2) ≠ (1/2 : ℚ) := by
  constructor
  · simp [methodAction, List.lookup]
  · have h : Rat.floor (1/2) = (0 : ℤ) := by
      show ⌊(1:ℚ)/2⌋ = 0
      rw [Int.floor_eq_iff]
      norm_num
    rw [mathFloor, h]
    norm_num

/-- C7 amended: of the geometry operations, exactly `resizeTo`, `resizeBy`
and `showAt` floor their numeric arguments before transmission; `moveTo`,
`moveBy` and `setBounds` place the caller's values in the payload
unmodified. -/
theorem geometry_flooring_amended (idn : Identity) (o : WindowMovementOptions)
    (a : AnchorType) (l t dl dt w h dw dh : ℚ) (b : Bounds) (f : Bool) :
    (methodAction (Method.resizeTo w h a o) idn).fields.lookup "width"
        = some (FieldVal.num (mathFloor w)) ∧
    (methodAction (Method.resizeTo w h a o) idn).fields.lookup "height"
        = some (FieldVal.num (mathFloor h)) ∧
    (methodAction (Method.resizeBy dw dh a o) idn).fields.lookup "deltaWidth"
        = some (FieldVal.num (mathFloor dw)) ∧
    (methodAction (Method.resizeBy dw dh a o) idn).fields.lookup "deltaHeight"
        = some (FieldVal.num (mathFloor dh)) ∧
    (methodAction (Method.showAt l t f o) idn).fields.lookup "left"
        = some (FieldVal.num (mathFloor l)) ∧
    (methodAction (Method.showAt l t f o) idn).fields.lookup "top"
        = some (FieldVal.num (mathFloor t)) ∧
    (methodAction (Method.moveTo l t o) idn).fields.lookup "left"
        = some (FieldVal.num l) ∧
    (methodAction (Method.moveTo l t o) idn).fields.lookup "top"
        = some (FieldVal.num t) ∧
    (methodAction (Method.moveBy dl dt o) idn).fields.lookup "deltaLeft"
        = some (FieldVal.num dl) ∧
    (methodAction (Method.moveBy dl dt o) idn).fields.lookup "deltaTop"
        = some (FieldVal.num dt) ∧
    (methodAction (Method.setBounds b o) idn).fields.lookup "width"
        = some (FieldVal.num b.width) ∧
    (methodAction (Method.setBounds b o) idn).fields.lookup "height"
        = some (FieldVal.num b.height) ∧
    (methodAction (Method.setBounds b o) idn).fields.lookup "left"
        = some (FieldVal.num b.left) ∧
    (methodAction (Method.setBounds b o) idn).fields.lookup "top"
        = some (FieldVal.num b.top) := by
  refine ⟨?_, ?_, ?_, ?_, ?_, ?_, ?_, ?_, ?_, ?_, ?_, ?_, ?_, ?_⟩ <;>
    simp [methodAction, List.lookup]

/-- C8 counterexample: when the runtime reports no group members (the
documented ungrouped case), `getGroup` returns the empty array, not a
single-element sequence containing the caller. -/
theorem getGroup_empty_when_ungrouped :
    getGroupResult [] = [] ∧ (getGroupResult []).length ≠ 1 := by
  constructor <;> simp [getGroupResult]

/-- C8 amended: `getGroup` on an ungrouped handle (empty runtime reply)
returns the empty sequence; on a grouped handle the caller's identity is
present in the result whenever the runtime's reply lists it as a non-external
member, since the resolver preserves each entry's identity. -/
theorem getGroup_self_inclusion_amended (self : Identity) (data : List GroupWindowIdentity)
    (e : GroupWindowIdentity) (he : e ∈ data) (hx : e.isExternalWindow = false)
    (hu : e.uuid = self.uuid) (hn : e.name = self.name) :
    GroupMember.window self ∈ getGroupResult data ∧ getGroupResult [] = [] := by
  refine ⟨?_, rfl⟩
  have hne : data.length ≠ 0 := by
    cases data with
    | nil => cases he
    | cons x xs => simp
  rw [getGroupResult, if_pos hne, windowListFromNameList]
  exact List.mem_map.mpr ⟨e, he, by simp [hx, hu, hn]⟩

/-- C8 witness: a grouped reply listing the caller as a local member yields a
result containing the caller's handle; the empty reply yields the empty
result. -/
theorem getGroup_self_inclusion_witness :
    GroupMember.window ⟨"u", "n"⟩ ∈ getGroupResult [⟨"u", "n", false⟩] ∧
    getGroupResult [] = [] :=
  getGroup_self_inclusion_amended ⟨"u", "n"⟩ [⟨"u", "n", false⟩] ⟨"u", "n", false⟩
    (by simp) rfl rfl rfl

/-- C9 counterexample: for an `isExternalWindow` entry the resolver builds the
handle from `{ uuid }` alone, so the foreign handle does not carry the
entry's `name`. -/
theorem foreign_member_drops_name :
    windowListFromNameList [⟨"u", "n", true⟩] = [GroupMember.external "u"] ∧
    memberName (GroupMember.external "u") ≠ some "n" := by
  constructor <;> simp [windowListFromNameList, memberName]

/-- C9 amended: the resolver yields a same-length, same-order sequence whose
i-th handle is foreign exactly when the i-th entry's `isExternalWindow` flag
is set; a local handle carries the entry's uuid and name, a foreign handle
only the entry's uuid. -/
theorem group_resolver_amended (l : List GroupWindowIdentity) (i : Nat) (hi : i < l.length) :
    (windowListFromNameList l).length = l.length ∧
    (windowListFromNameList l).get ⟨i, by simpa [windowListFromNameList] using hi⟩ =
      (if (l.get ⟨i, hi⟩).isExternalWindow then GroupMember.external (l.get ⟨i, hi⟩).uuid
       else GroupMember.window ⟨(l.get ⟨i, hi⟩).uuid, (l.get ⟨i, hi⟩).name⟩) := by
  constructor
  · simp [windowListFromNameList]
  · simp [windowListFromNameList]

/-- C9 witness: a single external entry resolves to the one foreign handle
carrying its uuid. -/
theorem group_resolver_witness :
    (windowListFromNameList [⟨"u", "n", true⟩]).length = 1 ∧
    (windowListFromNameList [⟨"u", "n", true⟩]).get
        ⟨0, by simp [windowListFromNameList]⟩ = GroupMember.external "u" := by
  refine ⟨(group_resolver_amended [⟨"u", "n", true⟩] 0 (by simp)).1, ?_⟩
  have h := (group_resolver_amended [⟨"u", "n", true⟩] 0 (by simp)).2
  simpa using h

/-- C10: `createWindow` writes the defaults into the caller's own options
object before the creation RPC: with `waitForPageLoad` and `autoShow` unset,
after the call the caller's object holds `waitForPageLoad = false` and
`autoShow = true`, and it is the very value the RPC received. -/
theorem create_mutates_caller_options (o : WindowOption)
    (h1 : o.waitForPageLoad = none) (h2 : o.autoShow = none) :
    (createWindowPrelude o).callerOptions.waitForPageLoad = some false ∧
    (createWindowPrelude o).callerOptions.autoShow = some true ∧
    (createWindowPrelude o).callerOptions = (createWindowPrelude o).rpcArg := by
  refine ⟨?_, ?_, rfl⟩ <;> simp [createWindowPrelude, setDefaults, h1, h2]

/-- C10 witness: starting from options with both flags unset, the caller's
object ends with the defaults filled in and equal to the RPC argument. -/
theorem create_mutates_caller_options_witness :
    (createWindowPrelude ⟨"w1", none, none, none⟩).callerOptions.waitForPageLoad = some false ∧
    (createWindowPrelude ⟨"w1", none, none, none⟩).callerOptions.autoShow = some true ∧
    (createWindowPrelude ⟨"w1", none, none, none⟩).callerOptions =
      (createWindowPrelude ⟨"w1", none, none, none⟩).rpcArg :=
  create_mutates_caller_options ⟨"w1", none, none, none⟩ rfl rfl

end JsAdapter
